import Mathlib

/-!
Verification model of the book-my-show seat-reservation core.

The repository runs the reservation state machine from the client side
(`useBooking` in `src/src/pages/Index.tsx`) against two Supabase tables,
`seats` and `bookings` (schema in the SQL migration), plus the SQL function
`release_expired_holds` that sweeps expired holds.

The embedding below mirrors the source:

* a `Seat` / `Booking` record field-for-field mirrors the `seats` /
  `bookings` table rows the client reads and writes (timestamps are Nat
  milliseconds, uuids are Nat tokens, `show_id` a Nat);
* a Supabase `update(..).eq(..)` call is modelled as a `List.map` that
  rewrites every row matching the `eq` filters and leaves other rows
  unchanged.  A conditional update that matches zero rows reports no error
  to the caller, exactly as Supabase behaves, so the modelled operations
  continue past it just as the source does;
* `holdSeat`, `confirmPayment` and `releaseHold` are the three mutating
  client operations; each one's row-rewriting function is factored out as a
  named definition so theorems can speak about it.  Each operation also
  finishes with an `await fetchSeats()` UI refresh in the source; that
  refresh is modelled once, as the separate `fetchSeats` operation
  (sweep + ordered query + local-state reconciliation), rather than being
  inlined into every operation's transition.  `holdSeat` additionally
  *starts* with `await fetchSeats()`, whose server-side sweep is
  semantically load-bearing, so that sweep is inlined there;
* the client's component state `seats` (the snapshot its availability
  check reads) is a separate argument from the store state: in the source
  the check `seats.find(...)` reads the React state captured at render
  time, which can lag behind the store.
-/

/-- Status column of a `seats` row: `CHECK (status IN ('AVAILABLE', 'HELD', 'BOOKED'))`. -/
inductive SeatStatus where
  | AVAILABLE
  | HELD
  | BOOKED
deriving DecidableEq, Repr

/-- Status column of a `bookings` row: `CHECK (status IN ('HELD', 'CONFIRMED', 'CANCELLED'))`. -/
inductive BookingStatus where
  | HELD
  | CONFIRMED
  | CANCELLED
deriving DecidableEq, Repr

/-- A `seats` table row, mirroring the `Seat` interface of `useBooking`
(fields `id, seat_id, status, hold_expires_at, booked_by, booked_at,
hold_id, held_by, show_id`). -/
structure Seat where
  id : Nat
  seat_id : String
  status : SeatStatus
  hold_expires_at : Option Nat
  booked_by : Option String
  booked_at : Option Nat
  hold_id : Option Nat
  held_by : Option String
  show_id : Nat
deriving DecidableEq, Repr

/-- A `bookings` table row (columns `id, seat_id, customer_name, status,
hold_expires_at, confirmed_at`; the `user_id` column is authentication
bookkeeping and is not read by any modelled operation). -/
structure Booking where
  id : Nat
  seat_id : Nat
  customer_name : String
  status : BookingStatus
  hold_expires_at : Option Nat
  confirmed_at : Option Nat
deriving DecidableEq, Repr

/-- The store: the two mutable tables. -/
structure DB where
  seats : List Seat
  bookings : List Booking
deriving DecidableEq, Repr

/-- The client's `BookingState` from `useBooking` (its locally saved view
of its own active reservation; persisted to localStorage). -/
inductive ClientStatus where
  | IDLE
  | HELD
  | CONFIRMED
  | CANCELLED
deriving DecidableEq, Repr

/-- Mirrors the `BookingState` interface: `bookingId, seatId, customerName,
status, holdExpiresAt`. -/
structure BookingState where
  bookingId : Option Nat
  seatId : Option Nat
  customerName : String
  status : ClientStatus
  holdExpiresAt : Option Nat
deriving DecidableEq, Repr

/-- The all-null client state the source resets to. -/
def idleBookingState : BookingState :=
  { bookingId := none, seatId := none, customerName := "", status := .IDLE,
    holdExpiresAt := none }

/-- `const HOLD_DURATION_SECONDS = 20;` -/
def HOLD_DURATION_SECONDS : Nat := 20

/-- `new Date(Date.now() + HOLD_DURATION_SECONDS * 1000)` (milliseconds). -/
def newHoldExpiry (now : Nat) : Nat := now + HOLD_DURATION_SECONDS * 1000

/-- JavaScript `String.prototype.trim` restricted to ASCII whitespace,
which is all the model needs. -/
def isWhitespaceChar (c : Char) : Bool :=
  c == ' ' || c == '\t' || c == '\n' || c == '\r'

/-- Strip leading and trailing whitespace from a character list. -/
def trimChars (cs : List Char) : List Char :=
  ((cs.dropWhile isWhitespaceChar).reverse.dropWhile isWhitespaceChar).reverse

/-- `customerName.trim()` as used throughout `holdSeat`. -/
def jsTrim (s : String) : String := ⟨trimChars s.data⟩

/-- The SQL predicate `hold_expires_at < now()` (a NULL column compares
false). -/
def expiredAt (now : Nat) : Option Nat → Bool
  | some e => e < now
  | none => false

/-- Per-row action of `release_expired_holds` on `seats`:
`SET status='AVAILABLE', hold_expires_at=NULL, hold_id=NULL, held_by=NULL
WHERE status='HELD' AND hold_expires_at < now()`. -/
def sweepSeat (now : Nat) (s : Seat) : Seat :=
  if s.status == .HELD && expiredAt now s.hold_expires_at then
    { s with status := .AVAILABLE, hold_expires_at := none, hold_id := none,
             held_by := none }
  else s

/-- Per-row action of `release_expired_holds` on `bookings`:
`SET status='CANCELLED' WHERE status='HELD' AND hold_expires_at < now()`. -/
def sweepBooking (now : Nat) (b : Booking) : Booking :=
  if b.status == .HELD && expiredAt now b.hold_expires_at then
    { b with status := .CANCELLED }
  else b

/-- The SQL function `release_expired_holds` (the Expiry Reclaimer): two
row-wise UPDATEs inside one plpgsql function, hence one transaction. -/
def release_expired_holds (now : Nat) (db : DB) : DB :=
  { seats := db.seats.map (sweepSeat now),
    bookings := db.bookings.map (sweepBooking now) }

/-- The source's client-side validity test for a store-reported hold,
`expiresAt > new Date()` (fetchSeats, line 307). -/
def storeHoldActive (expiresAt now : Nat) : Bool := now < expiresAt

/-- The local-state reconciliation block of `fetchSeats` (lines 300-325):
when the saved state is HELD it looks the saved seat up in the fetched
rows; if that row is still HELD with an expiry, a live expiry resumes the
countdown from the store's value and a lapsed one resets the local state;
every other case (row missing, row AVAILABLE or BOOKED, expiry NULL) falls
through with the local state untouched.  The saved token is never compared
against the row's `hold_id`. -/
def reconcileBookingState (data : List Seat) (st : BookingState) (now : Nat) :
    BookingState :=
  match st.seatId, st.status with
  | some sid, .HELD =>
    match data.find? (fun s => s.id == sid) with
    | some heldSeat =>
      match heldSeat.status, heldSeat.hold_expires_at with
      | .HELD, some expiresAt =>
        if storeHoldActive expiresAt now then
          { st with holdExpiresAt := some expiresAt }
        else idleBookingState
      | _, _ => st
    | none => st
  | _, _ => st

/-- Character-list lexicographic order on code points; ASCII byte order,
matching Postgres `ORDER BY` on the TEXT column `seat_id` for these ASCII
labels. -/
def lexLe : List Char → List Char → Bool
  | [], _ => true
  | _ :: _, [] => false
  | a :: as, b :: bs =>
    if a.toNat < b.toNat then true
    else if b.toNat < a.toNat then false
    else lexLe as bs

/-- String comparison used by the store's `order('seat_id')`. -/
def strLe (a b : String) : Bool := lexLe a.data b.data

/-- Insert into a le-sorted list (the generic sorting scaffold both seat
orderings are expressed with). -/
def insertLe {α : Type} (le : α → α → Bool) (x : α) : List α → List α
  | [] => [x]
  | y :: ys => if le x y then x :: y :: ys else y :: insertLe le x ys

/-- Insertion sort with a Bool comparator. -/
def sortByLe {α : Type} (le : α → α → Bool) : List α → List α
  | [] => []
  | x :: xs => insertLe le x (sortByLe le xs)

/-- The seat query of `fetchSeats`:
`from('seats').select('*').eq('show_id', ...).order('seat_id')` —
the rows of the show sorted by the *string* order of their labels. -/
def listSeatsQuery (showId : Nat) (db : DB) : List Seat :=
  sortByLe (fun a b => strLe a.seat_id b.seat_id)
    (db.seats.filter (fun s => s.show_id == showId))

/-- `parseInt` on the leading digit run (our labels are `A` followed by
digits, so the JS NaN case does not arise; a digitless tail maps to 0). -/
def parseLeadingNat (cs : List Char) : Nat :=
  (cs.takeWhile Char.isDigit).foldl (fun n c => 10 * n + (c.toNat - 48)) 0

/-- Drop the first `'A'`, as `seat_id.replace('A', '')` does on these
labels (JS `replace` with a string pattern replaces one occurrence). -/
def removeFirstA : List Char → List Char
  | [] => []
  | c :: cs => if c == 'A' then cs else c :: removeFirstA cs

/-- The numeric key SeatGrid sorts by:
`parseInt(seat_id.replace('A', ''))`. -/
def seatNum (label : String) : Nat := parseLeadingNat (removeFirstA label.data)

/-- SeatGrid's display ordering (SeatGrid.tsx lines 58-63): a sort by the
numeric part of the label, ascending. -/
def seatGridSorted (seats : List Seat) : List Seat :=
  sortByLe (fun a b => Nat.ble (seatNum a.seat_id) (seatNum b.seat_id)) seats

/-- `fetchSeats`: runs `release_expired_holds` server-side, re-queries the
show's seats in label-string order, and reconciles the saved booking
state against the fetched rows.  Returns the swept store, the fetched
rows, and the reconciled local state. -/
def fetchSeats (showId : Nat) (db : DB) (st : BookingState) (now : Nat) :
    DB × List Seat × BookingState :=
  let db1 := release_expired_holds now db
  let data := listSeatsQuery showId db1
  (db1, data, reconcileBookingState data st now)

/-- Observable outcome of `holdSeat`: the missing-name early return, the
"Seat Unavailable" early return, or the success path ("Seat Held"). -/
inductive HoldResult where
  | MissingName
  | SeatUnavailable
  | Held
deriving DecidableEq, Repr

/-- Observable outcome of `confirmPayment`: the "No active booking" early
return or the success path ("Booking Confirmed!"). -/
inductive ConfirmResult where
  | NoActiveBooking
  | Confirmed
deriving DecidableEq, Repr

/-- Observable outcome of `releaseHold`: the silent `if (!seatId) return`
or the success path ("Hold Released"). -/
inductive ReleaseResult where
  | NoActiveHold
  | Released
deriving DecidableEq, Repr

/-- The availability check of `holdSeat` (lines 418-419):
`seats.find(s => s.id === selectedSeat.id)?.status !== 'AVAILABLE'`,
read from the client's `seats` component state. -/
def snapshotAvailable (snapshot : List Seat) (sid : Nat) : Bool :=
  match snapshot.find? (fun s => s.id == sid) with
  | some s => s.status == .AVAILABLE
  | none => false

/-- Row function of `holdSeat`'s conditional seat update:
`update({status:'HELD', hold_expires_at, hold_id, held_by})
.eq('id', sid).eq('status', 'AVAILABLE')`. -/
def holdSeatUpdate (sid bid : Nat) (name : String) (expiry : Nat) (s : Seat) :
    Seat :=
  if s.id == sid && s.status == .AVAILABLE then
    { s with status := .HELD, hold_expires_at := some expiry,
             hold_id := some bid, held_by := some name }
  else s

/-- `holdSeat(customerName)` (lines 397-485).  `snapshot` is the client's
`seats` state its check reads; `db` is the store; `sid` the selected seat
row id; `bid` the fresh `crypto.randomUUID()`.  After the name guard the
source awaits `fetchSeats()` (whose server-side sweep is inlined here),
checks the snapshot, then issues the conditional seat update followed by
the bookings insert.  The insert is NOT conditioned on the seat update
having matched a row: Supabase reports no error for a zero-row update, so
the source reaches the insert and the success path regardless. -/
def holdSeat (snapshot : List Seat) (db : DB) (st : BookingState) (sid : Nat)
    (customerName : String) (now bid : Nat) :
    HoldResult × DB × BookingState :=
  if jsTrim customerName == "" then (.MissingName, db, st)
  else
    let db1 := release_expired_holds now db
    if snapshotAvailable snapshot sid then
      let name := jsTrim customerName
      let expiry := newHoldExpiry now
      let seats := db1.seats.map (holdSeatUpdate sid bid name expiry)
      let bookings := db1.bookings ++
        [{ id := bid, seat_id := sid, customer_name := name, status := .HELD,
           hold_expires_at := some expiry, confirmed_at := none }]
      (.Held, { seats := seats, bookings := bookings },
        { bookingId := some bid, seatId := some sid, customerName := name,
          status := .HELD, holdExpiresAt := some expiry })
    else (.SeatUnavailable, db1, st)

/-- Row function of `confirmPayment`'s seat update:
`update({status:'BOOKED', hold fields NULL, booked_by, booked_at})
.eq('id', sid).eq('hold_id', bid)` — keyed on the hold token, with no
condition on the seat's status and no expiry comparison. -/
def confirmSeatUpdate (sid bid : Nat) (customerName : String) (now : Nat)
    (s : Seat) : Seat :=
  if s.id == sid && s.hold_id == some bid then
    { s with status := .BOOKED, hold_expires_at := none, hold_id := none,
             held_by := none, booked_by := some customerName,
             booked_at := some now }
  else s

/-- Row function of `confirmPayment`'s booking update:
`update({status:'CONFIRMED', confirmed_at}).eq('id', bid)` —
unconditional on the booking's current status. -/
def confirmBookingUpdate (bid now : Nat) (b : Booking) : Booking :=
  if b.id == bid then { b with status := .CONFIRMED, confirmed_at := some now }
  else b

/-- `confirmPayment()` (lines 487-563): early return when the saved state
has no booking or seat id; otherwise the token-keyed seat update and the
unconditional booking update, in that order, with no expiry check
anywhere.  The saved state is then cleared with status CONFIRMED (the
source later resets it to IDLE on a 2s timer; the cleared state is
modelled).  The trailing `fetchSeats()` refresh is the separate
`fetchSeats` operation. -/
def confirmPayment (db : DB) (st : BookingState) (now : Nat) :
    ConfirmResult × DB × BookingState :=
  match st.bookingId, st.seatId with
  | some bid, some sid =>
    let seats := db.seats.map (confirmSeatUpdate sid bid st.customerName now)
    let bookings := db.bookings.map (confirmBookingUpdate bid now)
    (.Confirmed, { seats := seats, bookings := bookings },
      { bookingId := none, seatId := none, customerName := "",
        status := .CONFIRMED, holdExpiresAt := none })
  | _, _ => (.NoActiveBooking, db, st)

/-- Row function of `releaseHold`'s seat update:
`update({status:'AVAILABLE', hold_expires_at:NULL, hold_id:NULL,
held_by:NULL}).eq('id', sid)` — keyed on the row id alone: no condition on
the seat's status or its `hold_id`, and `booked_by`/`booked_at` are not
cleared. -/
def releaseSeatUpdate (sid : Nat) (s : Seat) : Seat :=
  if s.id == sid then
    { s with status := .AVAILABLE, hold_expires_at := none, hold_id := none,
             held_by := none }
  else s

/-- Row function of `releaseHold`'s booking update:
`update({status:'CANCELLED'}).eq('id', bid)` — unconditional on the
booking's current status. -/
def cancelBookingUpdate (bid : Nat) (b : Booking) : Booking :=
  if b.id == bid then { b with status := .CANCELLED } else b

/-- `releaseHold()` (lines 565-617): returns silently when the saved state
has no seat id; otherwise rewrites the seat row by id and, when a booking
id is saved, cancels that booking; then resets the saved state to idle.
The trailing `fetchSeats()` refresh is the separate `fetchSeats`
operation. -/
def releaseHold (db : DB) (st : BookingState) :
    ReleaseResult × DB × BookingState :=
  match st.seatId with
  | none => (.NoActiveHold, db, st)
  | some sid =>
    let seats := db.seats.map (releaseSeatUpdate sid)
    let bookings :=
      match st.bookingId with
      | some bid => db.bookings.map (cancelBookingUpdate bid)
      | none => db.bookings
    (.Released, { seats := seats, bookings := bookings }, idleBookingState)

/-- The §3 field-shape invariant of the spec, on the columns of a `seats`
row: AVAILABLE means every hold and booking field is unset, HELD means the
hold fields are set and the booking fields unset, BOOKED means the booking
fields are set and the hold fields unset. -/
def seatShapeOk (s : Seat) : Bool :=
  match s.status with
  | .AVAILABLE =>
    s.hold_expires_at == none && s.hold_id == none && s.held_by == none &&
    s.booked_by == none && s.booked_at == none
  | .HELD =>
    s.hold_expires_at.isSome && s.hold_id.isSome && s.held_by.isSome &&
    s.booked_by == none && s.booked_at == none
  | .BOOKED =>
    s.booked_by.isSome && s.booked_at.isSome && s.hold_expires_at == none &&
    s.hold_id == none && s.held_by == none

/-- One direction of the §3 transaction/seat agreement invariant: every
CONFIRMED booking's seat is BOOKED. -/
def confirmedImpliesBooked (db : DB) : Bool :=
  db.bookings.all (fun b =>
    !(b.status == .CONFIRMED) ||
    db.seats.any (fun s => s.id == b.seat_id && s.status == .BOOKED))

/-- A fresh seat row, as seeded by `seedShow` (`status: 'AVAILABLE'`, all
other mutable columns NULL). -/
def freshSeat (rowId : Nat) (label : String) (showId : Nat) : Seat :=
  { id := rowId, seat_id := label, status := .AVAILABLE,
    hold_expires_at := none, booked_by := none, booked_at := none,
    hold_id := none, held_by := none, show_id := showId }

/-! ### Concrete scenarios -/

/-- The store row of seat A1 after another party (token 99, "Eve") has
claimed it, while the client's snapshot still shows it AVAILABLE. -/
def eveHeldSeat : Seat :=
  { freshSeat 1 "A1" 0 with
      status := .HELD, hold_expires_at := some 1000000,
      hold_id := some 99, held_by := some "Eve" }

/-- Eve's HELD transaction record. -/
def eveBooking : Booking :=
  { id := 99, seat_id := 1, customer_name := "Eve", status := .HELD,
    hold_expires_at := some 1000000, confirmed_at := none }

/-- Store state in which seat A1 is concurrently held by token 99. -/
def c1db : DB := { seats := [eveHeldSeat], bookings := [eveBooking] }

/-- A one-seat show as `seedShow` provisions it. -/
def oneSeatDB : DB := { seats := [freshSeat 1 "A1" 0], bookings := [] }

/-- C2 scenario, step 1: Bob holds seat A1 at t=0 under token 10 (his hold
will expire at t=20000). -/
def c2AfterBobHold : HoldResult × DB × BookingState :=
  holdSeat [freshSeat 1 "A1" 0] oneSeatDB idleBookingState 1 "Bob" 0 10

/-- C2 scenario, step 2: the reclaimer sweeps at t=21000, returning the
seat to AVAILABLE and cancelling Bob's transaction.  Bob's client (say a
suspended tab) still has its saved HELD state. -/
def c2AfterSweep : DB := release_expired_holds 21000 c2AfterBobHold.2.1

/-- C2 scenario, step 3: Alice holds the now-AVAILABLE seat at t=30000
under token 20. -/
def c2AfterAliceHold : HoldResult × DB × BookingState :=
  holdSeat c2AfterSweep.seats c2AfterSweep idleBookingState 1 "Alice" 30000 20

/-- C2 scenario, step 4: Alice confirms at t=31000; the seat is BOOKED for
Alice. -/
def c2AfterAliceConfirm : DB :=
  (confirmPayment c2AfterAliceHold.2.1 c2AfterAliceHold.2.2 31000).2.1

/-- C2 scenario, step 5: Bob's tab resumes; its countdown sees its saved
hold lapsed and auto-invokes `releaseHold` with Bob's stale saved state
(the source's interval callback does exactly this, without consulting the
store first). -/
def c2Final : DB := (releaseHold c2AfterAliceConfirm c2AfterBobHold.2.2).2.1

/-- C3 scenario: Bob holds seat A1 at t=0 under token 7. -/
def c3AfterBobHold : HoldResult × DB × BookingState :=
  holdSeat [freshSeat 1 "A1" 0] oneSeatDB idleBookingState 1 "Bob" 0 7

/-- C3 scenario: the reclaimer sweeps at t=21000 (hold lapsed at t=20000):
seat back to AVAILABLE, transaction 7 CANCELLED. -/
def c3AfterSweep : DB := release_expired_holds 21000 c3AfterBobHold.2.1

/-- C3 scenario: Bob's client, not yet aware of the sweep, confirms at
t=22000 with its saved token 7. -/
def c3Final : ConfirmResult × DB × BookingState :=
  confirmPayment c3AfterSweep c3AfterBobHold.2.2 22000

/-- C4 scenario: Bob holds seat A1 at t=0 under token 7 (deadline 20000),
then confirms at t=25000 — after the deadline, with the reclaimer not yet
run, so the seat is still HELD under his token and transaction 7 is still
in HELD status. -/
def c4Final : ConfirmResult × DB × BookingState :=
  confirmPayment c3AfterBobHold.2.1 c3AfterBobHold.2.2 25000

/-- A seat BOOKED for Alice (hold fields cleared), as `confirmPayment`
leaves it. -/
def c5BookedSeat : Seat :=
  { freshSeat 1 "A1" 0 with
      status := .BOOKED, booked_by := some "Alice", booked_at := some 50 }

/-- Store state in which seat A1 is BOOKED and transaction 7 is terminal
(CONFIRMED). -/
def c5db : DB :=
  { seats := [c5BookedSeat],
    bookings := [{ id := 7, seat_id := 1, customer_name := "Alice",
                   status := .CONFIRMED, hold_expires_at := some 100,
                   confirmed_at := some 50 }] }

/-- A stale saved client state still claiming a HELD reservation of seat 1
under token 7 (reachable when the countdown tick or a restored tab invokes
`releaseHold` while the store has moved on). -/
def c5StaleState : BookingState :=
  { bookingId := some 7, seatId := some 1, customerName := "Alice",
    status := .HELD, holdExpiresAt := some 100 }

/-- A seat HELD under token 3 with deadline exactly 100. -/
def c6HeldSeat : Seat :=
  { freshSeat 1 "A1" 0 with
      status := .HELD, hold_expires_at := some 100, hold_id := some 3,
      held_by := some "Bob" }

/-- Store state for the expiry-boundary scenario. -/
def c6db : DB :=
  { seats := [c6HeldSeat],
    bookings := [{ id := 3, seat_id := 1, customer_name := "Bob",
                   status := .HELD, hold_expires_at := some 100,
                   confirmed_at := none }] }

/-- The holder's saved state for the boundary scenario. -/
def c6St : BookingState :=
  { bookingId := some 3, seatId := some 1, customerName := "Bob",
    status := .HELD, holdExpiresAt := some 100 }

/-- The stale saved client state of a holder whose hold (token 10, expiry
20000) has since been reclaimed. -/
def c8StaleHeld : BookingState :=
  { bookingId := some 10, seatId := some 1, customerName := "Bob",
    status := .HELD, holdExpiresAt := some 20000 }

/-- A three-seat show whose labels expose the string-versus-numeric
ordering difference. -/
def threeSeatDB : DB :=
  { seats := [freshSeat 1 "A1" 0, freshSeat 2 "A2" 0, freshSeat 3 "A10" 0],
    bookings := [] }

/-! ### Theorems -/

/-- Claim C1: the spec requires that a hold attempt on a seat whose current
status is not AVAILABLE returns SeatUnavailable and has no side effects.
Evaluating `holdSeat` at the failing input — snapshot shows A1 AVAILABLE,
store row already HELD under token 99 — shows the source instead reaches
the success path: the conditional seat update matches zero rows (the seat
stays Eve's, unchanged), no error is reported, and the code then inserts a
bookings row in HELD status for token 5 and saves a HELD local state.  A
side effect is committed and SeatUnavailable is never returned. -/
theorem C1_hold_race_creates_orphan_booking :
    holdSeat [freshSeat 1 "A1" 0] c1db idleBookingState 1 "Alice" 500 5 =
      (.Held,
       { seats := [eveHeldSeat],
         bookings := [eveBooking,
           { id := 5, seat_id := 1, customer_name := "Alice", status := .HELD,
             hold_expires_at := some 20500, confirmed_at := none }] },
       { bookingId := some 5, seatId := some 1, customerName := "Alice",
         status := .HELD, holdExpiresAt := some 20500 }) := by decide

/-- Claim C2: the spec's three-shape invariant must hold after every
sequence of hold, confirm, release and reclaim operations, and in
particular no operation may leave a seat AVAILABLE with `booked_by` or
`booked_at` still set.  Running the concrete five-step interleaving above
(Bob holds; reclaimer sweeps; Alice holds; Alice confirms; Bob's stale
client releases) ends with exactly that forbidden shape: `releaseHold`
rewrites the seat keyed on its row id alone, so it strips Alice's BOOKED
seat back to AVAILABLE while her `booked_by`/`booked_at` stay set. -/
theorem C2_shape_invariant_violated :
    c2Final.seats =
      [{ id := 1, seat_id := "A1", status := .AVAILABLE,
         hold_expires_at := none, booked_by := some "Alice",
         booked_at := some 31000, hold_id := none, held_by := none,
         show_id := 0 }] ∧
    c2Final.seats.all seatShapeOk = false := by decide

/-- Claim C3: the spec requires the seat mutation and its paired
transaction mutation to land as one atomic unit, keeping transaction
status and seat status in agreement (CONFIRMED iff the seat is BOOKED).
In the concrete reclaimed-then-confirm run above, `confirmPayment`'s seat
update is token-keyed and matches no row (the seat stays AVAILABLE), but
the booking update is unconditional and still fires: transaction 7 — a
terminal CANCELLED record — becomes CONFIRMED while its seat is
AVAILABLE, and the operation reports success. -/
theorem C3_seat_transaction_disagree :
    c3Final.1 = .Confirmed ∧
    c3Final.2.1.seats =
      [{ id := 1, seat_id := "A1", status := .AVAILABLE,
         hold_expires_at := none, booked_by := none, booked_at := none,
         hold_id := none, held_by := none, show_id := 0 }] ∧
    c3Final.2.1.bookings =
      [{ id := 7, seat_id := 1, customer_name := "Bob", status := .CONFIRMED,
         hold_expires_at := some 20000, confirmed_at := some 22000 }] ∧
    confirmedImpliesBooked c3Final.2.1 = false := by decide

/-- Claim C4: the spec requires `confirm` to compare the deadline against
the wall clock and return HoldExpired with no mutation once
`now >= holdExpiresAt`, even before the reclaimer sweeps.  The source's
`confirmPayment` contains no expiry comparison at all: evaluated at
t=25000 on a hold whose deadline was 20000, it books the seat and confirms
the transaction. -/
theorem C4_confirm_books_expired_hold :
    expiredAt 25000 (some (newHoldExpiry 0)) = true ∧
    c4Final.1 = .Confirmed ∧
    c4Final.2.1.seats =
      [{ id := 1, seat_id := "A1", status := .BOOKED,
         hold_expires_at := none, booked_by := some "Bob",
         booked_at := some 25000, hold_id := none, held_by := none,
         show_id := 0 }] ∧
    c4Final.2.1.bookings =
      [{ id := 7, seat_id := 1, customer_name := "Bob", status := .CONFIRMED,
         hold_expires_at := some 20000, confirmed_at := some 25000 }] := by
  decide

/-- Claim C5 as stated is false on the code: it says release succeeds only
if the transaction with the given token is currently HELD.  Evaluating
`releaseHold` on a store whose transaction 7 is CONFIRMED (terminal) and
whose seat is BOOKED shows the call still takes the success path and
mutates both rows — the seat is forced back to AVAILABLE (its booking
fields left behind) and the terminal transaction is overwritten to
CANCELLED — because the seat update is keyed on the row id alone and the
booking update is unconditional. -/
theorem C5_release_ignores_transaction_status :
    releaseHold c5db c5StaleState =
      (.Released,
       { seats := [{ id := 1, seat_id := "A1", status := .AVAILABLE,
                     hold_expires_at := none, booked_by := some "Alice",
                     booked_at := some 50, hold_id := none, held_by := none,
                     show_id := 0 }],
         bookings := [{ id := 7, seat_id := 1, customer_name := "Alice",
                        status := .CANCELLED, hold_expires_at := some 100,
                        confirmed_at := some 50 }] },
       idleBookingState) ∧
    (releaseHold c5db c5StaleState).2.1 ≠ c5db := by decide

/-- Claim C5 amended: `releaseHold` acts whenever the caller's saved seat
id is set, keyed on the seat row id alone and regardless of the
transaction's current status; within the client's own sequential use,
however, a successful release resets the saved state, so an immediately
repeated release finds no saved seat id, performs no store mutation, and
takes the no-op return (the outcome the spec's HoldNotFound maps to):
first call Released, second call NoActiveHold. -/
theorem C5_release_then_release_noop (db : DB) (st : BookingState) (sid : Nat)
    (h : st.seatId = some sid) :
    (releaseHold db st).1 = .Released ∧
    (releaseHold db st).2.2 = idleBookingState ∧
    releaseHold (releaseHold db st).2.1 (releaseHold db st).2.2 =
      (.NoActiveHold, (releaseHold db st).2.1, (releaseHold db st).2.2) := by
  simp only [releaseHold, h]
  exact ⟨trivial, trivial, rfl⟩

/-- Witness for C5's amended theorem at a concrete held state. -/
theorem C5_release_then_release_noop_witness :
    (releaseHold oneSeatDB c5StaleState).1 = .Released ∧
    (releaseHold oneSeatDB c5StaleState).2.2 = idleBookingState ∧
    releaseHold (releaseHold oneSeatDB c5StaleState).2.1
        (releaseHold oneSeatDB c5StaleState).2.2 =
      (.NoActiveHold, (releaseHold oneSeatDB c5StaleState).2.1,
       (releaseHold oneSeatDB c5StaleState).2.2) :=
  C5_release_then_release_noop oneSeatDB c5StaleState 1 rfl

/-- Claim C6 as stated is false on the code at the boundary instant
`now = holdExpiresAt`: the claim says both the reclaimer and the lazy
client check treat `now >= holdExpiresAt` as expired, so the reclaimer
reclaims every HELD seat whose deadline is at or before now.  At now=100
with deadline 100, the SQL sweep (`hold_expires_at < now()`) leaves the
store completely unchanged — the seat stays HELD — while the client-side
check of `fetchSeats` (`expiresAt > new Date()` failing) judges the same
hold expired and discards the local state.  The two comparisons differ at
equality. -/
theorem C6_boundary_instant_disagrees :
    release_expired_holds 100 c6db = c6db ∧
    c6HeldSeat.status = .HELD ∧ c6HeldSeat.hold_expires_at = some 100 ∧
    reconcileBookingState c6db.seats c6St 100 = idleBookingState := by decide

/-- Claim C6 amended: the reclaimer turns a HELD seat AVAILABLE exactly
when its deadline is strictly before now (`hold_expires_at < now()`),
while the lazy client check judges a hold lapsed exactly when its deadline
is at or before now (`expiresAt > new Date()` failing); away from the
single instant `now = holdExpiresAt` the two comparisons agree. -/
theorem C6_expiry_comparison_semantics (s : Seat) (e now : Nat)
    (hst : s.status = .HELD) (he : s.hold_expires_at = some e) :
    ((sweepSeat now s).status = .AVAILABLE ↔ e < now) ∧
    (storeHoldActive e now = false ↔ e ≤ now) ∧
    (e ≠ now →
      ((sweepSeat now s).status = .AVAILABLE ↔ storeHoldActive e now = false)) := by
  have hsweep : (sweepSeat now s).status = .AVAILABLE ↔ e < now := by
    by_cases h : e < now
    · simp [sweepSeat, expiredAt, hst, he, h]
    · simp [sweepSeat, expiredAt, hst, he, h]
  have hactive : storeHoldActive e now = false ↔ e ≤ now := by
    simp [storeHoldActive, Nat.not_lt]
  refine ⟨hsweep, hactive, fun hne => ?_⟩
  rw [hsweep, hactive]
  omega

/-- Witness for C6's amended theorem: a hold with deadline 100 observed at
now=200 is reclaimed by the sweep and judged lapsed by the client check. -/
theorem C6_expiry_comparison_semantics_witness :
    ((sweepSeat 200 c6HeldSeat).status = .AVAILABLE ↔ 100 < 200) ∧
    (storeHoldActive 100 200 = false ↔ 100 ≤ 200) ∧
    ((100 : Nat) ≠ 200 →
      ((sweepSeat 200 c6HeldSeat).status = .AVAILABLE ↔
        storeHoldActive 100 200 = false)) :=
  C6_expiry_comparison_semantics c6HeldSeat 100 200 rfl rfl

/-- The reclaimer's per-seat action never changes a row's id. -/
theorem sweepSeat_id (now : Nat) (s : Seat) : (sweepSeat now s).id = s.id := by
  unfold sweepSeat
  split <;> rfl

/-- The reclaimer's per-seat action leaves an AVAILABLE row untouched. -/
theorem sweepSeat_available (now : Nat) (s : Seat)
    (h : s.status = .AVAILABLE) : sweepSeat now s = s := by
  simp [sweepSeat, h]

/-- The reclaimer's per-booking action never changes a row's id. -/
theorem sweepBooking_id (now : Nat) (b : Booking) :
    (sweepBooking now b).id = b.id := by
  unfold sweepBooking
  split <;> rfl

/-- The conditional hold update never changes a row's id. -/
theorem holdSeatUpdate_id (sid bid : Nat) (name : String) (e : Nat)
    (s : Seat) : (holdSeatUpdate sid bid name e s).id = s.id := by
  unfold holdSeatUpdate
  split <;> rfl

/-- Claim C7: a successful hold on an AVAILABLE seat (the snapshot check
passes and every store row with the selected id is AVAILABLE) takes the
success path, moves the seat to HELD carrying the fresh token `bid` and
the expiry `now + HOLD_DURATION_SECONDS * 1000` (20 seconds), and creates
exactly one new booking transaction with that token: it is in HELD status
with the same expiry, and it is the only booking carrying the fresh id. -/
theorem C7_hold_creates_matching_transaction
    (snapshot : List Seat) (db : DB) (st : BookingState) (sid : Nat)
    (customerName : String) (now bid : Nat)
    (hname : jsTrim customerName ≠ "")
    (hsnap : snapshotAvailable snapshot sid = true)
    (hdb : ∀ s ∈ db.seats, s.id = sid → s.status = .AVAILABLE)
    (hfresh : ∀ b ∈ db.bookings, b.id ≠ bid) :
    (holdSeat snapshot db st sid customerName now bid).1 = .Held ∧
    (∀ s ∈ (holdSeat snapshot db st sid customerName now bid).2.1.seats,
      s.id = sid →
        s.status = .HELD ∧ s.hold_id = some bid ∧
        s.hold_expires_at = some (newHoldExpiry now) ∧
        s.held_by = some (jsTrim customerName)) ∧
    (holdSeat snapshot db st sid customerName now bid).2.1.bookings.filter
        (fun b => b.id == bid) =
      [{ id := bid, seat_id := sid, customer_name := jsTrim customerName,
         status := .HELD, hold_expires_at := some (newHoldExpiry now),
         confirmed_at := none }] ∧
    (holdSeat snapshot db st sid customerName now bid).2.2 =
      { bookingId := some bid, seatId := some sid,
        customerName := jsTrim customerName, status := .HELD,
        holdExpiresAt := some (newHoldExpiry now) } := by
  have hname' : (jsTrim customerName == "") = false := by
    simp [hname]
  simp only [holdSeat, hname', hsnap, Bool.false_eq_true, if_false, if_true,
    release_expired_holds]
  refine ⟨trivial, ?_, ?_, trivial⟩
  · intro s hs hid
    rw [List.mem_map] at hs
    obtain ⟨t, ht, rfl⟩ := hs
    rw [List.mem_map] at ht
    obtain ⟨u, hu, rfl⟩ := ht
    rw [holdSeatUpdate_id, sweepSeat_id] at hid
    have hA : u.status = .AVAILABLE := hdb u hu hid
    rw [sweepSeat_available now u hA]
    simp [holdSeatUpdate, hid, hA]
  · rw [List.filter_append]
    have h1 : (db.bookings.map (sweepBooking now)).filter
        (fun b => b.id == bid) = [] := by
      rw [List.filter_eq_nil_iff]
      intro b hb
      rw [List.mem_map] at hb
      obtain ⟨c, hc, rfl⟩ := hb
      simp [sweepBooking_id, hfresh c hc]
    rw [h1]
    simp

/-- Witness for C7 at the seeded one-seat show: Bob holds seat A1 at t=0
under fresh token 10. -/
theorem C7_hold_creates_matching_transaction_witness :
    (holdSeat [freshSeat 1 "A1" 0] oneSeatDB idleBookingState 1 "Bob" 0 10).1
        = .Held ∧
    (∀ s ∈ (holdSeat [freshSeat 1 "A1" 0] oneSeatDB idleBookingState 1 "Bob"
        0 10).2.1.seats,
      s.id = 1 →
        s.status = .HELD ∧ s.hold_id = some 10 ∧
        s.hold_expires_at = some (newHoldExpiry 0) ∧
        s.held_by = some (jsTrim "Bob")) ∧
    (holdSeat [freshSeat 1 "A1" 0] oneSeatDB idleBookingState 1 "Bob" 0
        10).2.1.bookings.filter (fun b => b.id == 10) =
      [{ id := 10, seat_id := 1, customer_name := jsTrim "Bob",
         status := .HELD, hold_expires_at := some (newHoldExpiry 0),
         confirmed_at := none }] ∧
    (holdSeat [freshSeat 1 "A1" 0] oneSeatDB idleBookingState 1 "Bob" 0
        10).2.2 =
      { bookingId := some 10, seatId := some 1, customerName := jsTrim "Bob",
        status := .HELD, holdExpiresAt := some (newHoldExpiry 0) } :=
  C7_hold_creates_matching_transaction [freshSeat 1 "A1" 0] oneSeatDB
    idleBookingState 1 "Bob" 0 10 (by decide) (by decide) (by decide)
    (by decide)

/-- Claim C8 as stated is false on the code: it says that when the store
reports the saved seat no longer HELD under the expected token, the local
hold state is discarded.  Reconciling a saved HELD state against a fetch
in which the seat has returned to AVAILABLE (it was reclaimed) leaves the
local state exactly as it was — still HELD — because the source's
reconciliation has no branch for a seat that is not HELD, and it never
compares the token at all. -/
theorem C8_reclaimed_seat_state_not_discarded :
    reconcileBookingState [freshSeat 1 "A1" 0] c8StaleHeld 30000 =
      c8StaleHeld ∧
    c8StaleHeld.status = .HELD ∧
    (freshSeat 1 "A1" 0).status = .AVAILABLE := by decide

/-- Claim C8 amended: on resumption the client re-queries the seats and
reconciles only the case in which the store still reports the saved seat
HELD: a store expiry in the future resumes the countdown from the store's
`hold_expires_at` (replacing the locally cached value), and a lapsed store
expiry discards the local hold state.  When the fetched row is not HELD
(reclaimed to AVAILABLE, or BOOKED) the local state is left unchanged, and
the saved token is never compared against the row's `hold_id`. -/
theorem C8_reconcile_only_when_still_held (data : List Seat)
    (st : BookingState) (now sid : Nat) (s : Seat)
    (hst : st.status = .HELD) (hsid : st.seatId = some sid)
    (hfind : data.find? (fun x => x.id == sid) = some s) :
    (s.status ≠ .HELD → reconcileBookingState data st now = st) ∧
    (∀ e, s.status = .HELD → s.hold_expires_at = some e →
      (now < e →
        reconcileBookingState data st now =
          { st with holdExpiresAt := some e }) ∧
      (e ≤ now → reconcileBookingState data st now = idleBookingState)) := by
  constructor
  · intro hne
    cases hstat : s.status with
    | HELD => exact absurd hstat hne
    | AVAILABLE =>
      simp [reconcileBookingState, hsid, hst, hfind, hstat]
    | BOOKED =>
      simp [reconcileBookingState, hsid, hst, hfind, hstat]
  · intro e hstat he
    constructor
    · intro hlt
      have hb : storeHoldActive e now = true := by
        simp [storeHoldActive, hlt]
      simp [reconcileBookingState, hsid, hst, hfind, hstat, he, hb]
    · intro hle
      have hb : storeHoldActive e now = false := by
        simp [storeHoldActive, Nat.not_lt, hle]
      simp [reconcileBookingState, hsid, hst, hfind, hstat, he, hb]

/-- Witness for C8's amended theorem: a stale HELD state reconciled
against a fetch in which the seat is still HELD with a live deadline
resumes from the store's expiry. -/
theorem C8_reconcile_only_when_still_held_witness :
    ((eveHeldSeat.status ≠ .HELD →
      reconcileBookingState [eveHeldSeat]
        { bookingId := some 99, seatId := some 1, customerName := "Eve",
          status := .HELD, holdExpiresAt := some 777 } 500 =
        { bookingId := some 99, seatId := some 1, customerName := "Eve",
          status := .HELD, holdExpiresAt := some 777 }) ∧
    (∀ e, eveHeldSeat.status = .HELD → eveHeldSeat.hold_expires_at = some e →
      (500 < e →
        reconcileBookingState [eveHeldSeat]
          { bookingId := some 99, seatId := some 1, customerName := "Eve",
            status := .HELD, holdExpiresAt := some 777 } 500 =
          { bookingId := some 99, seatId := some 1, customerName := "Eve",
            status := .HELD, holdExpiresAt := some e }) ∧
      (e ≤ 500 →
        reconcileBookingState [eveHeldSeat]
          { bookingId := some 99, seatId := some 1, customerName := "Eve",
            status := .HELD, holdExpiresAt := some 777 } 500 =
          idleBookingState))) :=
  C8_reconcile_only_when_still_held [eveHeldSeat]
    { bookingId := some 99, seatId := some 1, customerName := "Eve",
      status := .HELD, holdExpiresAt := some 777 } 500 1 eveHeldSeat
    rfl rfl (by decide)

/-- Claim C10: `confirmPayment`'s seat update is keyed on
`eq('id', seatId)` and `eq('hold_id', bookingId)`, so when every store row
with the saved seat id carries a hold token different from the saved one
(reclaimed and re-held under a new token, or no token at all), the seats
table is left entirely unchanged by the confirm call: confirm can never
book a seat out from under a different token's holder. -/
theorem C10_confirm_keyed_on_token (db : DB) (st : BookingState)
    (now sid bid : Nat) (hb : st.bookingId = some bid)
    (hs : st.seatId = some sid)
    (hdiff : ∀ s ∈ db.seats, s.id = sid → s.hold_id ≠ some bid) :
    (confirmPayment db st now).2.1.seats = db.seats := by
  simp only [confirmPayment, hb, hs]
  have h : ∀ s ∈ db.seats,
      confirmSeatUpdate sid bid st.customerName now s = s := by
    intro s hsmem
    unfold confirmSeatUpdate
    by_cases h1 : s.id = sid
    · have h2 := hdiff s hsmem h1
      simp [h1, h2]
    · simp [h1]
  calc db.seats.map (confirmSeatUpdate sid bid st.customerName now)
      = db.seats.map id := List.map_congr_left h
    _ = db.seats := List.map_id db.seats

/-- Witness for C10: confirming with saved token 5 while the store row of
seat 1 is held under token 99 leaves the seats table unchanged. -/
theorem C10_confirm_keyed_on_token_witness :
    (confirmPayment c1db
      { bookingId := some 5, seatId := some 1, customerName := "Alice",
        status := .HELD, holdExpiresAt := some 20500 } 600).2.1.seats =
    c1db.seats :=
  C10_confirm_keyed_on_token c1db
    { bookingId := some 5, seatId := some 1, customerName := "Alice",
      status := .HELD, holdExpiresAt := some 20500 } 600 1 5 rfl rfl
    (by decide)

/-- Claim C9 as stated is false on the code: the seat-listing query of
`fetchSeats` orders by the TEXT column `seat_id`, i.e. lexically, so on
labels A1, A2, A10 it returns A10 *before* A2 even though A2's number is
smaller — not the natural numeric order the claim asserts for the listing
operation. -/
theorem C9_store_query_is_lexical :
    (listSeatsQuery 0 threeSeatDB).map Seat.seat_id = ["A1", "A10", "A2"] ∧
    seatNum "A2" < seatNum "A10" := by decide

/-- Membership in `insertLe` is membership in the inserted element or the
list. -/
theorem mem_insertLe {α : Type} (le : α → α → Bool) (x a : α)
    (l : List α) : a ∈ insertLe le x l ↔ a = x ∨ a ∈ l := by
  induction l with
  | nil => simp [insertLe]
  | cons y ys ih =>
    by_cases h : le x y = true
    · simp [insertLe, h]
    · simp [insertLe, h, ih]
      tauto

/-- Inserting into a le-sorted list keeps it le-sorted, for a total and
transitive Bool comparator. -/
theorem pairwise_insertLe {α : Type} (le : α → α → Bool)
    (htot : ∀ a b, le a b = true ∨ le b a = true)
    (htrans : ∀ a b c, le a b = true → le b c = true → le a c = true)
    (x : α) (l : List α) (hl : l.Pairwise (fun a b => le a b = true)) :
    (insertLe le x l).Pairwise (fun a b => le a b = true) := by
  induction l with
  | nil => simp [insertLe]
  | cons y ys ih =>
    rcases List.pairwise_cons.mp hl with ⟨hy, hys⟩
    by_cases h : le x y = true
    · simp only [insertLe, if_pos h]
      refine List.pairwise_cons.mpr ⟨?_, hl⟩
      intro b hb
      rcases List.mem_cons.mp hb with rfl | hb'
      · exact h
      · exact htrans x y b h (hy b hb')
    · simp only [insertLe, if_neg h]
      refine List.pairwise_cons.mpr ⟨?_, ih hys⟩
      intro b hb
      rcases (mem_insertLe le x b ys).mp hb with rfl | hb'
      · rcases htot b y with h' | h'
        · exact absurd h' h
        · exact h'
      · exact hy b hb'

/-- `sortByLe` yields a le-sorted list for a total and transitive Bool
comparator. -/
theorem pairwise_sortByLe {α : Type} (le : α → α → Bool)
    (htot : ∀ a b, le a b = true ∨ le b a = true)
    (htrans : ∀ a b c, le a b = true → le b c = true → le a c = true)
    (l : List α) :
    (sortByLe le l).Pairwise (fun a b => le a b = true) := by
  induction l with
  | nil => simp [sortByLe]
  | cons x xs ih =>
    simpa [sortByLe] using pairwise_insertLe le htot htrans x (sortByLe le xs) ih

/-- `insertLe` produces a permutation of consing the element. -/
theorem perm_insertLe {α : Type} (le : α → α → Bool) (x : α) (l : List α) :
    (insertLe le x l).Perm (x :: l) := by
  induction l with
  | nil => exact List.Perm.refl _
  | cons y ys ih =>
    by_cases h : le x y = true
    · simp only [insertLe, if_pos h]
      exact List.Perm.refl _
    · simp only [insertLe, if_neg h]
      exact (ih.cons y).trans (List.Perm.swap x y ys)

/-- `sortByLe` permutes its input. -/
theorem perm_sortByLe {α : Type} (le : α → α → Bool) (l : List α) :
    (sortByLe le l).Perm l := by
  induction l with
  | nil => exact List.Perm.refl _
  | cons x xs ih =>
    exact (perm_insertLe le x (sortByLe le xs)).trans (ih.cons x)

/-- Claim C9 amended: the store query of `fetchSeats` returns the show's
seats in lexical string order of their labels (A10 before A2); it is the
SeatGrid component that re-sorts the fetched seats by the numeric part of
the label before display, so the *displayed* grid order is the natural
numeric order — for every pair of displayed seats the earlier one has the
smaller (or equal) label number, over a permutation of the fetched
seats. -/
theorem C9_grid_display_is_numeric (seats : List Seat) :
    (seatGridSorted seats).Pairwise
      (fun a b => seatNum a.seat_id ≤ seatNum b.seat_id) ∧
    (seatGridSorted seats).Perm seats := by
  constructor
  · have h := pairwise_sortByLe
      (fun a b : Seat => Nat.ble (seatNum a.seat_id) (seatNum b.seat_id))
      (fun a b => by
        rcases Nat.le_total (seatNum a.seat_id) (seatNum b.seat_id) with h | h
        · exact Or.inl (Nat.ble_eq.mpr h)
        · exact Or.inr (Nat.ble_eq.mpr h))
      (fun a b c hab hbc =>
        Nat.ble_eq.mpr (Nat.le_trans (Nat.ble_eq.mp hab) (Nat.ble_eq.mp hbc)))
      seats
    exact h.imp (fun hx => Nat.ble_eq.mp hx)
  · exact perm_sortByLe _ seats

